import Mathlib

/-!
Verification of the NBA-Draft-Career-Paths enrichment pipeline
(`src/scripts/dataset_creation.py`) against its design document.

The Python script is shallowly embedded: dataframes become lists of records,
the mutable JSON mapping cache becomes an explicit function
`String → Option (String × String)`, network/scraping collaborators become
oracle parameters, and `datetime.now().year` becomes an explicit
`currentYear` argument.  Python exceptions are modelled with `Except`,
`print` diagnostics that matter to the claims (the data-quality warning in
`calculate_years_since_draft`) are modelled as a returned `Bool`.
-/

namespace NBADraft

/-! ## Timeline Normalizer: `calculate_years_since_draft` -/

/-- Python `str.split(sep)` for a one-character separator, over the
character list of the string.  `''.split('-') = ['']`, and trailing
separators yield trailing empty groups, exactly as in Python. -/
def splitOnSep (sep : Char) : List Char → List (List Char)
  | [] => [[]]
  | c :: cs =>
    match splitOnSep sep cs with
    | [] => [[c]]
    | g :: gs => if c = sep then [] :: g :: gs else (c :: g) :: gs

/-- Digit-string value, `none` when the characters are not a nonempty
run of decimal digits. -/
def digitsToNat? (cs : List Char) : Option Nat :=
  if cs ≠ [] ∧ cs.all Char.isDigit then
    some (cs.foldl (fun n c => 10 * n + (c.toNat - 48)) 0)
  else none

/-- Python `int(...)` on a string (optional sign, decimal digits);
`none` models the `ValueError` raise. -/
def pyInt? (cs : List Char) : Option Int :=
  match cs with
  | '-' :: rest => (digitsToNat? rest).map fun n => -(n : Int)
  | '+' :: rest => (digitsToNat? rest).map fun n => (n : Int)
  | _ => (digitsToNat? cs).map fun n => (n : Int)

/-- `int(season.split('-')[0])`: the leading two-digit year of a season
label, `none` when Python's `int` would raise `ValueError`. -/
def parseStartYY (season : String) : Option Int :=
  match splitOnSep '-' season.toList with
  | [] => none
  | g :: _ => pyInt? g

/-- The loop guard `-10 < abs(potential_year - draft_year) < 30` for the
century candidate at offset `off` (Python `abs` is `Int.natAbs` cast back
to `ℤ`).  `currentYear - currentYear % 100` is `current_century`. -/
def candidateAccepted (currentYear startYY draftYear off : Int) : Bool :=
  let potential := currentYear - currentYear % 100 + off + startYY
  decide ((-10 : Int) < ((potential - draftYear).natAbs : Int)
    ∧ ((potential - draftYear).natAbs : Int) < 30)

/-- Core of `calculate_years_since_draft`, with the century-offset list a
parameter (the source fixes it to `[-100, 0, 100]`).  Returns the computed
offset together with `true` exactly when the degraded fallback path is
taken (the `print` warning followed by
`return current_century + start_yy - draft_year`). -/
def calcYearsCore (centuryOffsets : List Int)
    (currentYear startYY draftYear : Int) : Int × Bool :=
  let currentCentury := currentYear - currentYear % 100
  match centuryOffsets.find? (candidateAccepted currentYear startYY draftYear) with
  | some off => (currentCentury + off + startYY - draftYear, false)
  | none => (currentCentury + startYY - draftYear, true)

/-- `calculate_years_since_draft(season, draft_year)` evaluated when
`datetime.now().year` is `currentYear`; `none` when parsing the label
raises. -/
def calculate_years_since_draft (currentYear : Int) (season : String)
    (draftYear : Int) : Option (Int × Bool) :=
  (parseStartYY season).map fun startYY =>
    calcYearsCore [-100, 0, 100] currentYear startYY draftYear

/-- The candidate selection exactly as the spec words it: the first of
current, previous, next century whose signed offset from the reference
year lies in the open window `(-10, 30)`. -/
def specFirstAccepted (currentYear startYY draftYear : Int) : Option Int :=
  let c := currentYear - currentYear % 100 + startYY
  [c, c - 100, c + 100].find? fun p =>
    decide ((-10 : Int) < p - draftYear ∧ p - draftYear < 30)

theorem find?_cons_eq (p : α → Bool) (a : α) (l : List α) :
    (a :: l).find? p = if p a = true then some a else l.find? p := by
  cases h : p a <;> simp [List.find?, h]

/-- If a list has at most one element satisfying `p`, `find?` is invariant
under permutation of the list. -/
theorem find?_eq_of_perm_of_unique {l l' : List α} (p : α → Bool)
    (hperm : l.Perm l')
    (uniq : ∀ a b, a ∈ l → b ∈ l → p a = true → p b = true → a = b) :
    l.find? p = l'.find? p := by
  cases hl : l.find? p with
  | none =>
    rw [List.find?_eq_none] at hl
    symm
    rw [List.find?_eq_none]
    intro x hx
    exact hl x (hperm.symm.subset hx)
  | some a =>
    have hpa := List.find?_some hl
    have hma := List.mem_of_find?_eq_some hl
    cases hl' : l'.find? p with
    | none =>
      rw [List.find?_eq_none] at hl'
      exact absurd hpa (hl' a (hperm.subset hma))
    | some b =>
      have hpb := List.find?_some hl'
      have hmb := List.mem_of_find?_eq_some hl'
      exact congrArg some (uniq a b hma (hperm.symm.subset hmb) hpa hpb)

/-- Claim C1 as the spec states it: the function returns the offset of
the first century candidate, in the order current / previous / next,
whose signed offset lies in the open window `(-10, 30)`, and a candidate
is accepted (value returned without the data-quality warning) only when
its signed offset lies in that window. -/
def ClaimC1 : Prop :=
  ∀ currentYear startYY draftYear : Int, 0 ≤ startYY → startYY < 100 →
    (∀ p, specFirstAccepted currentYear startYY draftYear = some p →
      calcYearsCore [-100, 0, 100] currentYear startYY draftYear =
        (p - draftYear, false)) ∧
    ((calcYearsCore [-100, 0, 100] currentYear startYY draftYear).2 = false →
      -10 < (calcYearsCore [-100, 0, 100] currentYear startYY draftYear).1 ∧
      (calcYearsCore [-100, 0, 100] currentYear startYY draftYear).1 < 30)

/-- C1 is false on the code: for season start `95` and reference year
`2020` (current year 2026) the previous-century candidate 1995 has signed
offset `-25`, which the code accepts via `abs(offset) < 30`, so the
function returns `-25` without any warning even though `-25` is outside
the spec's signed window `(-10, 30)`. -/
theorem claim_C1_counterexample : ¬ ClaimC1 := by
  intro h
  have h2 := (h 2026 95 2020 (by decide) (by decide)).2 (by decide)
  have h3 : ¬ (-10 < (calcYearsCore [-100, 0, 100] 2026 95 2020).1) := by decide
  exact h3 h2.1

/-- C1 amended: whenever some candidate satisfies the spec's signed
window `(-10, 30)`, the code indeed returns that first candidate's offset
without a warning; but the code's actual acceptance test is
`abs(offset) < 30`, so a value is returned without the warning exactly
when its offset lies in the symmetric window `(-30, 30)` — in particular
offsets in `(-30, -10]` (such as `-18`) ARE accepted. -/
theorem claim_C1_amended :
    ∀ currentYear startYY draftYear : Int, 0 ≤ startYY → startYY < 100 →
    (∀ p, specFirstAccepted currentYear startYY draftYear = some p →
      calcYearsCore [-100, 0, 100] currentYear startYY draftYear =
        (p - draftYear, false)) ∧
    ((calcYearsCore [-100, 0, 100] currentYear startYY draftYear).2 = false →
      -30 < (calcYearsCore [-100, 0, 100] currentYear startYY draftYear).1 ∧
      (calcYearsCore [-100, 0, 100] currentYear startYY draftYear).1 < 30) := by
  intro cy yy dy hyy0 hyy1
  constructor
  · intro p hp
    simp only [specFirstAccepted, find?_cons_eq, List.find?_nil,
      decide_eq_true_eq] at hp
    simp only [calcYearsCore, candidateAccepted, find?_cons_eq, List.find?_nil,
      decide_eq_true_eq]
    split_ifs at hp with hs1 hs2 hs3
    · rw [Option.some.injEq] at hp
      subst hp
      rw [if_neg (by omega), if_pos (by omega)]
      simp only [Prod.mk.injEq, and_true]
      omega
    · rw [Option.some.injEq] at hp
      subst hp
      rw [if_pos (by omega)]
      simp only [Prod.mk.injEq, and_true]
      omega
    · rw [Option.some.injEq] at hp
      subst hp
      rw [if_neg (by omega), if_neg (by omega), if_pos (by omega)]
      simp only [Prod.mk.injEq, and_true]
      omega
  · intro hw
    simp only [calcYearsCore, candidateAccepted, find?_cons_eq, List.find?_nil,
      decide_eq_true_eq] at hw ⊢
    split_ifs at hw ⊢ with h1 h2 h3
    · constructor
      · show (-30 : Int) < cy - cy % 100 + -100 + yy - dy
        omega
      · show cy - cy % 100 + -100 + yy - dy < (30 : Int)
        omega
    · constructor
      · show (-30 : Int) < cy - cy % 100 + 0 + yy - dy
        omega
      · show cy - cy % 100 + 0 + yy - dy < (30 : Int)
        omega
    · constructor
      · show (-30 : Int) < cy - cy % 100 + 100 + yy - dy
        omega
      · show cy - cy % 100 + 100 + yy - dy < (30 : Int)
        omega

/-- Witness for `claim_C1_amended`: season `"99-00"`, reference 1998,
current year 2026 — the spec's first accepted candidate is 1999 and the
code returns offset `1` without warning. -/
theorem claim_C1_amended_witness :
    calcYearsCore [-100, 0, 100] 2026 99 1998 = (1999 - 1998, false) :=
  (claim_C1_amended 2026 99 1998 (by decide) (by decide)).1 1999 (by decide)

/-- Claim C3 as stated: with the current century at 2000, season
`"05-06"` and reference year 2023 take the degraded fallback path —
data-quality warning logged, value `-18` returned. -/
def ClaimC3 : Prop :=
  ∀ currentYear : Int, currentYear - currentYear % 100 = 2000 →
    calculate_years_since_draft currentYear "05-06" 2023 = some (-18, true)

/-- C3 is false on the code: at current year 2026 the current-century
candidate 2005 has `abs(2005 - 2023) = 18 < 30`, so the loop accepts it
and returns `-18` with no warning — the fallback path is not taken. -/
theorem claim_C3_counterexample : ¬ ClaimC3 := by
  intro h
  exact absurd (h 2026 (by decide)) (by decide)

/-- C3 amended: the value is indeed `-18`, but it is produced by the
loop's acceptance of the current-century candidate (the code tests
`abs(offset) < 30`, and `abs (-18) = 18`), not by the warning fallback:
no data-quality warning is logged. -/
theorem claim_C3_amended :
    ∀ currentYear : Int, currentYear - currentYear % 100 = 2000 →
    calculate_years_since_draft currentYear "05-06" 2023 =
      some (-18, false) := by
  intro cy h
  have hp : parseStartYY "05-06" = some 5 := by decide
  simp only [calculate_years_since_draft, hp, Option.map_some']
  simp only [calcYearsCore, candidateAccepted, find?_cons_eq, List.find?_nil,
    decide_eq_true_eq, h]
  norm_num

/-- Witness for `claim_C3_amended` at current year 2026. -/
theorem claim_C3_amended_witness :
    calculate_years_since_draft 2026 "05-06" 2023 = some (-18, false) :=
  claim_C3_amended 2026 (by decide)

/-- Claim C4: whenever the current-century candidate lies between
`reference_year - 9` and `reference_year + 29` inclusive, the function
selects it (returns its offset, no warning) rather than the previous- or
next-century candidate. -/
theorem claim_C4 :
    ∀ currentYear startYY draftYear : Int,
    draftYear - 9 ≤ currentYear - currentYear % 100 + startYY →
    currentYear - currentYear % 100 + startYY ≤ draftYear + 29 →
    calcYearsCore [-100, 0, 100] currentYear startYY draftYear =
      (currentYear - currentYear % 100 + startYY - draftYear, false) := by
  intro cy yy dy h1 h2
  simp only [calcYearsCore, candidateAccepted, find?_cons_eq, List.find?_nil,
    decide_eq_true_eq]
  rw [if_neg (by omega), if_pos (by omega)]
  simp only [Prod.mk.injEq, and_true]
  omega

/-- Witness for `claim_C4`: current year 2026, season start 24, draft
year 2020 — candidate 2024 is inside the window and offset 4 is
returned. -/
theorem claim_C4_witness :
    calcYearsCore [-100, 0, 100] 2026 24 2020 = (4, false) := by
  simpa using claim_C4 2026 24 2020 (by decide) (by decide)

/-- Claim C9: the code's acceptance test (`abs(offset) < 30` on
candidates 100 years apart) is satisfied by at most one of the three
century candidates, hence evaluating the candidates in any permuted
order yields the same result as the source's `[-100, 0, 100]` order. -/
theorem claim_C9 :
    ∀ offs : List Int, offs.Perm [-100, 0, 100] →
    ∀ currentYear startYY draftYear : Int,
    (∀ o1 o2, o1 ∈ offs → o2 ∈ offs →
      candidateAccepted currentYear startYY draftYear o1 = true →
      candidateAccepted currentYear startYY draftYear o2 = true → o1 = o2) ∧
    calcYearsCore offs currentYear startYY draftYear =
      calcYearsCore [-100, 0, 100] currentYear startYY draftYear := by
  intro offs hperm cy yy dy
  have uniq : ∀ o1 o2, o1 ∈ offs → o2 ∈ offs →
      candidateAccepted cy yy dy o1 = true →
      candidateAccepted cy yy dy o2 = true → o1 = o2 := by
    intro o1 o2 h1 h2 ha1 ha2
    have m1 : o1 ∈ [(-100 : Int), 0, 100] := hperm.subset h1
    have m2 : o2 ∈ [(-100 : Int), 0, 100] := hperm.subset h2
    simp only [List.mem_cons, List.not_mem_nil, or_false] at m1 m2
    simp only [candidateAccepted, decide_eq_true_eq] at ha1 ha2
    rcases m1 with rfl | rfl | rfl <;> rcases m2 with rfl | rfl | rfl <;> omega
  refine ⟨uniq, ?_⟩
  simp only [calcYearsCore]
  rw [find?_eq_of_perm_of_unique _ hperm uniq]

/-- Witness for `claim_C9`: the permuted order `[0, -100, 100]` gives the
same answer as the source's order on a concrete input. -/
theorem claim_C9_witness :
    calcYearsCore [0, -100, 100] 2026 5 2023 =
      calcYearsCore [-100, 0, 100] 2026 5 2023 :=
  (claim_C9 [0, -100, 100] (List.Perm.swap (-100) 0 [100]) 2026 5 2023).2

/-! ## Registry Reconciler: `add_missing_players_to_draft_history` -/

/-- A row of `data/nba_draft_history.json`: columns
`PLAYER_NAME, PROBALLERS_ID, SEASON, OVERALL_PICK`; `PROBALLERS_ID` is a
nullable `Int64`. -/
structure DraftRecord where
  playerName : String
  proballersId : Option Int
  season : Int
  overallPick : Int
deriving DecidableEq, Repr

/-- A draft-history row as fetched from the NBA API (only the columns the
script uses: `PLAYER_NAME, SEASON, OVERALL_PICK`). -/
structure ApiDraftRecord where
  playerName : String
  season : Int
  overallPick : Int
deriving DecidableEq, Repr

/-- The boolean mask `is_new_draft_player`:
`~SEASON.isin(existing SEASON) & ~OVERALL_PICK.isin(existing OVERALL_PICK)`
— note both membership tests are global over the whole registry. -/
def is_new_draft_player (existing : List DraftRecord) (r : ApiDraftRecord) : Bool :=
  decide (r.season ∉ existing.map DraftRecord.season) &&
  decide (r.overallPick ∉ existing.map DraftRecord.overallPick)

/-- A fetched row appended to the registry, with `PROBALLERS_ID = pd.NA`. -/
def toDraftRecord (r : ApiDraftRecord) : DraftRecord :=
  { playerName := r.playerName, proballersId := none,
    season := r.season, overallPick := r.overallPick }

/-- Comparator of `sort_values(['SEASON','OVERALL_PICK'],
ascending=[False, True])`: season descending, pick ascending. -/
def draftOrderLE (a b : DraftRecord) : Bool :=
  decide (b.season < a.season ∨ (a.season = b.season ∧ a.overallPick ≤ b.overallPick))

/-- `add_missing_players_to_draft_history`, with the file contents and the
NBA-API fetch as explicit inputs and the rewritten file as output.
`pd.concat` is append, the sort is (stable) `mergeSort`, and
`reset_index(drop=True)` is the identity on a list embedding. -/
def add_missing_players_to_draft_history (existing : List DraftRecord)
    (fetched : List ApiDraftRecord) : List DraftRecord :=
  let newOnes := (fetched.filter (is_new_draft_player existing)).map toDraftRecord
  (existing ++ newOnes).mergeSort draftOrderLE

/-- The spec's novelty test, word for word: new iff the draft year is
absent from the registry's draft years AND the overall pick is absent
from the registry's picks (global, not per-year). -/
def specIsNewEntrant (existing : List DraftRecord) (r : ApiDraftRecord) : Prop :=
  r.season ∉ existing.map DraftRecord.season ∧
  r.overallPick ∉ existing.map DraftRecord.overallPick

instance (existing : List DraftRecord) (r : ApiDraftRecord) :
    Decidable (specIsNewEntrant existing r) := by
  unfold specIsNewEntrant; infer_instance

theorem draftOrderLE_trans :
    ∀ a b c, draftOrderLE a b → draftOrderLE b c → draftOrderLE a c := by
  intro a b c hab hbc
  simp only [draftOrderLE, decide_eq_true_eq] at hab hbc ⊢
  omega

theorem draftOrderLE_total : ∀ a b, draftOrderLE a b || draftOrderLE b a := by
  intro a b
  simp only [draftOrderLE, Bool.or_eq_true, decide_eq_true_eq]
  omega

theorem is_new_eq_decide_spec (existing : List DraftRecord) :
    is_new_draft_player existing = fun r => decide (specIsNewEntrant existing r) := by
  funext r
  simp [is_new_draft_player, specIsNewEntrant]

/-- Claim C5: the reconciled registry consists, up to the re-sort, of
exactly the existing records plus those fetched entrants that pass the
spec's global two-predicate novelty test, the latter appended with a null
external identifier. -/
theorem claim_C5 :
    ∀ (existing : List DraftRecord) (fetched : List ApiDraftRecord),
    (add_missing_players_to_draft_history existing fetched).Perm
      (existing ++
        (fetched.filter (fun r => decide (specIsNewEntrant existing r))).map
          toDraftRecord) ∧
    ∀ r ∈ (fetched.filter (fun r => decide (specIsNewEntrant existing r))).map
        toDraftRecord, r.proballersId = none := by
  intro existing fetched
  constructor
  · unfold add_missing_players_to_draft_history
    rw [is_new_eq_decide_spec existing]
    exact List.mergeSort_perm _ _
  · intro r hr
    rcases List.mem_map.mp hr with ⟨s, _, rfl⟩
    rfl

/-- Witness for `claim_C5` on the concrete scenario: registry holding
2024 pick 1, fetch returning 2024 pick 1 plus 2025 pick 2; only the 2025
entrant passes the global test. -/
theorem claim_C5_witness :
    (add_missing_players_to_draft_history
      [⟨"A", some 7, 2024, 1⟩] [⟨"A", 2024, 1⟩, ⟨"B", 2025, 2⟩]).Perm
      [⟨"A", some 7, 2024, 1⟩, ⟨"B", none, 2025, 2⟩] := by
  have h := (claim_C5 [⟨"A", some 7, 2024, 1⟩] [⟨"A", 2024, 1⟩, ⟨"B", 2025, 2⟩]).1
  simpa using h

/-- Claim C6: reconciliation is idempotent — applying the update a second
time with the same fetched batch returns the first result unchanged
(same entrants, same order, same fields). -/
theorem claim_C6 :
    ∀ (existing : List DraftRecord) (fetched : List ApiDraftRecord),
    add_missing_players_to_draft_history
      (add_missing_players_to_draft_history existing fetched) fetched =
    add_missing_players_to_draft_history existing fetched := by
  intro existing fetched
  set R1 := add_missing_players_to_draft_history existing fetched with hR1
  have hperm : R1.Perm (existing ++
      (fetched.filter (is_new_draft_player existing)).map toDraftRecord) :=
    List.mergeSort_perm _ _
  have hnone : ∀ r ∈ fetched, is_new_draft_player R1 r = false := by
    intro r hr
    by_cases hnew : is_new_draft_player existing r = true
    · have hmem : toDraftRecord r ∈ R1 := by
        refine hperm.mem_iff.mpr (List.mem_append.mpr (Or.inr ?_))
        exact List.mem_map_of_mem _ (List.mem_filter.mpr ⟨hr, hnew⟩)
      have : r.season ∈ R1.map DraftRecord.season :=
        List.mem_map.mpr ⟨toDraftRecord r, hmem, rfl⟩
      simp only [is_new_draft_player, Bool.and_eq_false_iff, decide_eq_false_iff_not,
        not_not]
      exact Or.inl this
    · simp only [is_new_draft_player, Bool.and_eq_true, decide_eq_true_eq,
        not_and_or, not_not] at hnew
      have hsub : ∀ d ∈ existing, d ∈ R1 := fun d hd =>
        hperm.mem_iff.mpr (List.mem_append.mpr (Or.inl hd))
      simp only [is_new_draft_player, Bool.and_eq_false_iff, decide_eq_false_iff_not,
        not_not]
      rcases hnew with hmem | hmem
      · rcases List.mem_map.mp hmem with ⟨d, hd, hds⟩
        exact Or.inl (List.mem_map.mpr ⟨d, hsub d hd, hds⟩)
      · rcases List.mem_map.mp hmem with ⟨d, hd, hds⟩
        exact Or.inr (List.mem_map.mpr ⟨d, hsub d hd, hds⟩)
  have hfilter : fetched.filter (is_new_draft_player R1) = [] := by
    rw [List.filter_eq_nil_iff]
    intro r hr
    simp [hnone r hr]
  have hsorted : R1.Pairwise (fun a b => draftOrderLE a b) := by
    rw [hR1]
    exact List.sorted_mergeSort
      (fun a b c => draftOrderLE_trans a b c) (fun a b => draftOrderLE_total a b) _
  unfold add_missing_players_to_draft_history
  rw [hfilter]
  simp only [List.map_nil, List.append_nil]
  exact List.mergeSort_of_sorted hsorted

/-! ## Country Resolver: `map_countries_to_alpha3`

The JSON mapping cache `data/league_to_country_mappings.json` is a Python
dict keyed by league prefix with values `{'ALPHA-3': ..., 'NAME': ...}`;
we embed it as a function `String → Option (String × String)` (the pair
being alpha-3 code and country name).  `pycountry` is an oracle
parameter: it maps a 2- or 3-letter prefix to `(alpha_3, name)`, `none`
modelling the `AttributeError` path when the code is unknown. -/

/-- A career-path row at the point `map_countries_to_alpha3` receives it:
the base placement data plus the already-derived `League_Prefix`. -/
structure PlacementRow where
  playerName : String
  proballersId : Int
  season : String
  team : String
  league : String
deriving DecidableEq, Repr

/-- `df['League'].str.split('-').str[0]`. -/
def leaguePrefixOf (league : String) : String :=
  match splitOnSep '-' league.toList with
  | [] => ""
  | g :: _ => String.mk g

/-- A placement row with its `League_Prefix` column. -/
structure PrefixedRow where
  base : PlacementRow
  leaguePrefix : String
deriving DecidableEq, Repr

/-- A placement row after the country-resolution columns are added
(`Country_Alpha3` and `Country_Name`, null when unresolved). -/
structure CountryRow extends PrefixedRow where
  countryAlpha3 : Option String
  countryName : Option String
deriving DecidableEq, Repr

/-- Single-key dict assignment `country_mappings[k] = v`. -/
def updateMapping (c : String → Option (String × String)) (k : String)
    (v : String × String) : String → Option (String × String) :=
  fun x => if x = k then some v else c x

/-- The `len(...) == 2 / len(...) == 3` guarded pycountry lookup; any
other prefix length is never looked up. -/
def pycountryGuardedLookup (oracle : String → Option (String × String))
    (p : String) : Option (String × String) :=
  if p.length = 2 ∨ p.length = 3 then oracle p else none

/-- The `for country_unmapped in countries_without_mapping` loop, acting
on the mapping dict: each successfully looked-up prefix is written into
the cache; failures leave it untouched. -/
def resolveUnmapped (oracle : String → Option (String × String)) :
    List String → (String → Option (String × String)) →
    (String → Option (String × String))
  | [], c => c
  | p :: ps, c =>
    match pycountryGuardedLookup oracle p with
    | some v => resolveUnmapped oracle ps (updateMapping c p v)
    | none => resolveUnmapped oracle ps c

/-- Auxiliary for `dedupFirst`: drop elements already seen, keeping
first occurrences. -/
def dedupFirstAux [DecidableEq α] (seen : List α) : List α → List α
  | [] => []
  | a :: l =>
    if a ∈ seen then dedupFirstAux seen l
    else a :: dedupFirstAux (a :: seen) l

/-- pandas `.unique()` / `drop_duplicates()`: keep the first occurrence
of each element. -/
def dedupFirst [DecidableEq α] (l : List α) : List α :=
  dedupFirstAux [] l

/-- `map_countries_to_alpha3`: assign country columns from the cache,
collect the distinct unmapped prefixes, look each up via pycountry
(growing the cache on success), and return the enriched rows together
with the cache that is serialized back to disk.  Rows are assigned from
the final cache: this equals the source's in-loop column assignment,
since prefixes already cached are untouched by the loop and each
unmapped prefix is written at most once. -/
def map_countries_to_alpha3 (oracle : String → Option (String × String))
    (cache : String → Option (String × String)) (rows : List PrefixedRow) :
    List CountryRow × (String → Option (String × String)) :=
  let unmapped :=
    dedupFirst ((rows.map PrefixedRow.leaguePrefix).filter
      (fun p => (cache p).isNone))
  let cache1 := resolveUnmapped oracle unmapped cache
  (rows.map (fun r =>
    { toPrefixedRow := r,
      countryAlpha3 := (cache1 r.leaguePrefix).map Prod.fst,
      countryName := (cache1 r.leaguePrefix).map Prod.snd }), cache1)

theorem mem_dedupFirstAux [DecidableEq α] {x : α} :
    ∀ {l seen : List α}, x ∈ dedupFirstAux seen l → x ∈ l ∧ x ∉ seen := by
  intro l
  induction l with
  | nil => intro seen h; simp [dedupFirstAux] at h
  | cons a l ih =>
    intro seen h
    rw [dedupFirstAux] at h
    by_cases ha : a ∈ seen
    · rw [if_pos ha] at h
      obtain ⟨h1, h2⟩ := ih h
      exact ⟨List.mem_cons_of_mem _ h1, h2⟩
    · rw [if_neg ha] at h
      rcases List.mem_cons.mp h with rfl | h2
      · exact ⟨List.mem_cons_self _ _, ha⟩
      · obtain ⟨h1, h3⟩ := ih h2
        exact ⟨List.mem_cons_of_mem _ h1,
          fun hc => h3 (List.mem_cons_of_mem _ hc)⟩

theorem mem_of_mem_dedupFirst [DecidableEq α] {x : α} {l : List α}
    (h : x ∈ dedupFirst l) : x ∈ l :=
  (mem_dedupFirstAux h).1

theorem dedupFirstAux_nodup [DecidableEq α] :
    ∀ (l seen : List α), (dedupFirstAux seen l).Nodup := by
  intro l
  induction l with
  | nil => intro seen; simp [dedupFirstAux]
  | cons a l ih =>
    intro seen
    rw [dedupFirstAux]
    by_cases ha : a ∈ seen
    · rw [if_pos ha]
      exact ih seen
    · rw [if_neg ha, List.nodup_cons]
      refine ⟨fun hmem => ?_, ih (a :: seen)⟩
      exact (mem_dedupFirstAux hmem).2 (List.mem_cons_self _ _)

theorem dedupFirst_nodup [DecidableEq α] (l : List α) : (dedupFirst l).Nodup :=
  dedupFirstAux_nodup l []

theorem resolveUnmapped_not_mem (oracle : String → Option (String × String))
    {ps : List String} {q : String}
    (c : String → Option (String × String)) (hq : q ∉ ps) :
    resolveUnmapped oracle ps c q = c q := by
  induction ps generalizing c with
  | nil => rfl
  | cons p ps ih =>
    have hqp : q ≠ p := fun h => hq (h ▸ List.mem_cons_self _ _)
    have hqs : q ∉ ps := fun h => hq (List.mem_cons_of_mem _ h)
    rw [resolveUnmapped]
    cases pycountryGuardedLookup oracle p with
    | some v =>
      show resolveUnmapped oracle ps (updateMapping c p v) q = c q
      rw [ih (updateMapping c p v) hqs, updateMapping, if_neg hqp]
    | none =>
      show resolveUnmapped oracle ps c q = c q
      exact ih c hqs

/-- Claim C8: the Country Resolver is monotonic — every entry of the
cache before a resolution pass is still present, unchanged, in the cache
afterwards; in particular re-resolving an already-cached prefix leaves
its mapped alpha-3 code and name as they were. -/
theorem claim_C8 :
    ∀ (oracle cache : String → Option (String × String))
      (rows : List PrefixedRow) (p : String) (v : String × String),
    cache p = some v →
    (map_countries_to_alpha3 oracle cache rows).2 p = some v := by
  intro oracle cache rows p v hp
  simp only [map_countries_to_alpha3]
  have hq : p ∉ dedupFirst ((rows.map PrefixedRow.leaguePrefix).filter
      (fun x => (cache x).isNone)) := by
    intro hmem
    have h2 := List.of_mem_filter (mem_of_mem_dedupFirst hmem)
    rw [hp] at h2
    simp at h2
  rw [resolveUnmapped_not_mem oracle cache hq]
  exact hp

/-- Witness for `claim_C8`: a cache holding `ARG ↦ (ARG, Argentina)`
still holds exactly that entry after a resolution pass over a row whose
prefix is `ARG`. -/
theorem claim_C8_witness :
    (map_countries_to_alpha3 (fun _ => none)
      (fun x => if x = "ARG" then some ("ARG", "Argentina") else none)
      [⟨⟨"X", 1, "23-24", "T", "ARG-1"⟩, "ARG"⟩]).2 "ARG" =
      some ("ARG", "Argentina") :=
  claim_C8 (fun _ => none)
    (fun x => if x = "ARG" then some ("ARG", "Argentina") else none)
    [⟨⟨"X", 1, "23-24", "T", "ARG-1"⟩, "ARG"⟩] "ARG" ("ARG", "Argentina")
    (by simp)

/-! ## Per-year career-path update: `scrape_career_paths`

The Proballers site is an oracle `fetch : Int → Option (List RawTableRow)`
keyed by `PROBALLERS_ID`: `none` models a profile whose regular-season
section or table is missing (the player is skipped), `some rows` a parsed
table.  The per-year JSON files are a store `Int → Option (List
ScrapedCareerRow)`; a write replaces the year's batch wholesale. -/

/-- One row of the scraped regular-season table
(`{"Season":"23-24","Team":...,"League":...}`). -/
structure RawTableRow where
  season : String
  team : String
  league : String
deriving DecidableEq, Repr

/-- One row of `career_paths_draft_{year}.json`, columns
`Player_Name, Proballers_ID, Season, Team, League, Draft_Year`. -/
structure ScrapedCareerRow where
  playerName : String
  proballersId : Int
  season : String
  team : String
  league : String
  draftYear : Int
deriving DecidableEq, Repr

/-- How a run of `scrape_career_paths` terminates: normally, by the early
`return` on a draft year absent from the registry, or by the
`ValueError` that `pd.concat` raises on an empty list of tables. -/
inductive ScrapeOutcome where
  | ok : ScrapeOutcome
  | unknownYear : Int → ScrapeOutcome
  | concatError : Int → ScrapeOutcome
deriving DecidableEq, Repr

/-- The persisted per-draft-year placement batches. -/
abbrev Store := Int → Option (List ScrapedCareerRow)

/-- The per-player tables collected for one draft year: players of that
year with a non-null `PROBALLERS_ID`, each contributing one table when
the fetch finds career data. -/
def careerTables (registry : List DraftRecord)
    (fetch : Int → Option (List RawTableRow)) (y : Int) :
    List (List ScrapedCareerRow) :=
  (registry.filter
      (fun d => d.proballersId.isSome && decide (d.season = y))).filterMap
    fun d =>
      match d.proballersId with
      | some pid =>
        (fetch pid).map fun rows => rows.map fun t =>
          { playerName := d.playerName, proballersId := pid,
            season := t.season, team := t.team, league := t.league,
            draftYear := y }
      | none => none

/-- `scrape_career_paths(draft_years_to_update)`: walk the requested
years; a year absent from the registry prints and `return`s (aborting
the whole call); otherwise the year's tables are concatenated —
`pd.concat` raising `ValueError` when there are none — and the year's
file is replaced. -/
def scrape_career_paths (registry : List DraftRecord)
    (fetch : Int → Option (List RawTableRow)) :
    List Int → Store → Store × ScrapeOutcome
  | [], st => (st, .ok)
  | y :: ys, st =>
    if y ∉ registry.map DraftRecord.season then (st, .unknownYear y)
    else
      let tables := careerTables registry fetch y
      if tables.isEmpty then (st, .concatError y)
      else
        scrape_career_paths registry fetch ys
          (fun x => if x = y then some tables.flatten else st x)

/-- Claim C2 as stated: when a requested draft year is absent from the
registry, only that year's update is aborted — every other requested
year (present in the registry, with scrapable data) still gets its batch
written — and no other year's data is disturbed. -/
def ClaimC2 : Prop :=
  ∀ (registry : List DraftRecord) (fetch : Int → Option (List RawTableRow))
    (years : List Int) (st : Store) (y : Int),
    y ∈ years → y ∉ registry.map DraftRecord.season →
    ((scrape_career_paths registry fetch years st).1 y = st y) ∧
    (∀ y' ∈ years, y' ∈ registry.map DraftRecord.season →
      careerTables registry fetch y' ≠ [] →
      (scrape_career_paths registry fetch years st).1 y' =
        some (careerTables registry fetch y').flatten)

/-- The registry used in the scrape counterexample and witnesses. -/
def scrapeCexRegistry : List DraftRecord := [⟨"A", some 1, 2020, 1⟩]

/-- The fetch oracle used in the scrape counterexample and witnesses. -/
def scrapeCexFetch : Int → Option (List RawTableRow) :=
  fun _ => some [⟨"20-21", "T", "NBA-1"⟩]

/-- C2 is false on the code: requesting `[1999, 2020]` against a registry
that only has 2020, the unknown year 1999 triggers `return`, so the
update for 2020 — requested, present, scrapable — is never performed. -/
theorem claim_C2_counterexample : ¬ ClaimC2 := by
  intro h
  have h2 := (h scrapeCexRegistry scrapeCexFetch [1999, 2020] (fun _ => none)
    1999 (by decide) (by decide)).2 2020 (by decide) (by decide) (by decide)
  have h3 : (scrape_career_paths scrapeCexRegistry scrapeCexFetch
      [1999, 2020] (fun _ => none)).1 2020 = none := rfl
  rw [h3] at h2
  exact Option.noConfusion h2

/-- C2 amended: an unknown requested draft year aborts its own update
AND every later-requested year's update (the function `return`s).  Years
outside the request are never touched, and when the run ends with
`unknownYear u`, the store is exactly the one produced by the successful
run over the request prefix before `u` — years requested before the
unknown year are fully written, nothing is partially written. -/
theorem claim_C2_amended :
    ∀ (registry : List DraftRecord) (fetch : Int → Option (List RawTableRow))
      (years : List Int) (st : Store),
    (∀ y, y ∉ years → (scrape_career_paths registry fetch years st).1 y = st y) ∧
    (∀ u, (scrape_career_paths registry fetch years st).2 = .unknownYear u →
      u ∉ registry.map DraftRecord.season ∧
      ∃ pre post, years = pre ++ u :: post ∧
        scrape_career_paths registry fetch pre st =
          ((scrape_career_paths registry fetch years st).1, .ok)) := by
  intro registry fetch years
  induction years with
  | nil =>
    intro st
    constructor
    · intro y _
      rfl
    · intro u hu
      exact absurd hu (by simp [scrape_career_paths])
  | cons y ys ih =>
    intro st
    by_cases hk : y ∈ registry.map DraftRecord.season
    · by_cases he : (careerTables registry fetch y).isEmpty
      · have hsc : scrape_career_paths registry fetch (y :: ys) st =
            (st, .concatError y) := by
          simp [scrape_career_paths, hk, he]
        constructor
        · intro z _
          rw [hsc]
        · intro u hu
          rw [hsc] at hu
          exact absurd hu (by simp)
      · have hsc : scrape_career_paths registry fetch (y :: ys) st =
            scrape_career_paths registry fetch ys
              (fun x => if x = y then
                some (careerTables registry fetch y).flatten else st x) := by
          simp [scrape_career_paths, hk, he]
        obtain ⟨ih1, ih2⟩ := ih (fun x => if x = y then
          some (careerTables registry fetch y).flatten else st x)
        constructor
        · intro z hz
          have hzny : z ∉ ys := fun hc => hz (List.mem_cons_of_mem _ hc)
          have hzy : z ≠ y := fun hc => hz (hc ▸ List.mem_cons_self _ _)
          rw [hsc, ih1 z hzny]
          simp [hzy]
        · intro u hu
          rw [hsc] at hu
          obtain ⟨hu1, pre, post, hys, hpre⟩ := ih2 u hu
          refine ⟨hu1, y :: pre, post, by simp [hys], ?_⟩
          have hstep : scrape_career_paths registry fetch (y :: pre) st =
              scrape_career_paths registry fetch pre
                (fun x => if x = y then
                  some (careerTables registry fetch y).flatten else st x) := by
            simp [scrape_career_paths, hk, he]
          rw [hstep, hpre, hsc]
    · have hsc : scrape_career_paths registry fetch (y :: ys) st =
          (st, .unknownYear y) := by
        simp [scrape_career_paths, hk]
      constructor
      · intro z _
        rw [hsc]
      · intro u hu
        rw [hsc] at hu
        simp only [ScrapeOutcome.unknownYear.injEq] at hu
        subst hu
        refine ⟨hk, [], ys, rfl, ?_⟩
        rw [hsc]
        rfl

/-- Witness for `claim_C2_amended`: on the request `[1999, 2020]` with
1999 unknown, the run reports `unknownYear 1999`, and the store equals
the run over the empty prefix — i.e. nothing was written. -/
theorem claim_C2_amended_witness :
    (1999 : Int) ∉ scrapeCexRegistry.map DraftRecord.season ∧
    ∃ pre post, [(1999 : Int), 2020] = pre ++ (1999 : Int) :: post ∧
      scrape_career_paths scrapeCexRegistry scrapeCexFetch pre (fun _ => none) =
        ((scrape_career_paths scrapeCexRegistry scrapeCexFetch
          [1999, 2020] (fun _ => none)).1, .ok) :=
  (claim_C2_amended scrapeCexRegistry scrapeCexFetch [1999, 2020]
    (fun _ => none)).2 1999 rfl

/-- Claim C10: if every player selected for a requested (known) draft
year yields no career table, the per-year update fails with the
`pd.concat` `ValueError` — the store is returned unchanged; in
particular no empty batch is written for that year. -/
theorem claim_C10 :
    ∀ (registry : List DraftRecord) (fetch : Int → Option (List RawTableRow))
      (y : Int) (ys : List Int) (st : Store),
    y ∈ registry.map DraftRecord.season →
    (∀ d ∈ registry, d.season = y →
      ∀ pid, d.proballersId = some pid → fetch pid = none) →
    scrape_career_paths registry fetch (y :: ys) st = (st, .concatError y) := by
  intro registry fetch y ys st hk hempty
  have htab : careerTables registry fetch y = [] := by
    rw [careerTables, List.filterMap_eq_nil_iff]
    intro d hd
    have hd2 := List.mem_filter.mp hd
    have hdsea : d.season = y := by
      have := hd2.2
      simp only [Bool.and_eq_true, decide_eq_true_eq] at this
      exact this.2
    cases hpid : d.proballersId with
    | none => rfl
    | some pid =>
      have hf := hempty d hd2.1 hdsea pid hpid
      simp [hf]
  simp [scrape_career_paths, hk, htab]

/-- Witness for `claim_C10`: a registry year whose only player's profile
has no career data — the run errors out and writes nothing. -/
theorem claim_C10_witness :
    scrape_career_paths scrapeCexRegistry (fun _ => none) [2020]
      (fun _ => none) = ((fun _ => none : Store), .concatError 2020) :=
  claim_C10 scrapeCexRegistry (fun _ => none) 2020 [] (fun _ => none)
    (by decide) (fun _ _ _ _ _ => rfl)

/-! ## Career Path Aggregator: `create_dataframe_of_career_paths`

The aggregator reads the legacy batches under
`data/career_paths_per_draft_year/` (whose rows carry
`Player_Name, Proballers_ID, Season, Team, League` — were a
`Draft_Year` column present, the later rename of the merged `SEASON`
column to `Draft_Year` would create duplicate labels and every
`row['Draft_Year']` lookup would crash), left-joins the registry on
`Proballers_ID`, applies the timeline normalizer per row, filters to
`(-10, 30]` and drops exact duplicates. -/

/-- A fully enriched output row (pandas NaN fields are `Option`s; a row
that found no registry match keeps null draft metadata, and its
`Years_From_Draft` is NaN). -/
structure CareerPathRow where
  playerName : String
  proballersId : Int
  season : String
  team : String
  league : String
  leaguePrefix : String
  countryAlpha3 : Option String
  countryName : Option String
  draftYear : Option Int
  overallPick : Option Int
  yearsFromDraft : Option Int
deriving DecidableEq, Repr

/-- The underlying placement fields of an output row. -/
def baseOf (r : CareerPathRow) : PlacementRow :=
  ⟨r.playerName, r.proballersId, r.season, r.team, r.league⟩

/-- `pd.merge(..., how='left', left_on='Proballers_ID',
right_on='PROBALLERS_ID')` followed by the column drop/renames: every
matching registry row multiplies the placement row; no match yields one
row with null draft metadata.  `Years_From_Draft` does not exist yet
(`none` placeholder, assigned next). -/
def mergeWithDraftHistory (registry : List DraftRecord)
    (rows : List CountryRow) : List CareerPathRow :=
  rows.flatMap fun rc =>
    let mk : Option Int → Option Int → CareerPathRow := fun dy pick =>
      { playerName := rc.base.playerName, proballersId := rc.base.proballersId,
        season := rc.base.season, team := rc.base.team,
        league := rc.base.league, leaguePrefix := rc.leaguePrefix,
        countryAlpha3 := rc.countryAlpha3, countryName := rc.countryName,
        draftYear := dy, overallPick := pick, yearsFromDraft := none }
    let ms := registry.filter
      (fun d => decide (d.proballersId = some rc.base.proballersId))
    if ms.isEmpty then [mk none none]
    else ms.map fun d => mk (some d.season) (some d.overallPick)

/-- The row-wise `apply` of `calculate_years_since_draft`: parsing the
season label raises (`ValueError`) for a malformed label; with a null
draft year every comparison with NaN is false, so the fallback returns
NaN (filtered out later). -/
def addYearsFromDraft (currentYear : Int) (rows : List CareerPathRow) :
    Except String (List CareerPathRow) :=
  rows.mapM fun r =>
    match parseStartYY r.season with
    | none => .error "ValueError: invalid season label"
    | some yy =>
      .ok { r with
        yearsFromDraft := (r.draftYear.map
          (fun d => (calcYearsCore [-100, 0, 100] currentYear yy d).1)) }

/-- The outlier gate `Years_From_Draft > -10 & Years_From_Draft <= 30`
(NaN fails both comparisons). -/
def filterOutliers (rows : List CareerPathRow) : List CareerPathRow :=
  rows.filter fun r =>
    match r.yearsFromDraft with
    | some v => decide (-10 < v ∧ v ≤ 30)
    | none => false

/-- `create_dataframe_of_career_paths`, with the loaded batches, registry,
mapping cache, pycountry and the current year as explicit inputs.  The
first component is the mapping cache persisted by the country-resolution
step (written before any later failure); the second is the returned
dataframe, or the `ValueError` escaping from the `apply`. -/
def create_dataframe_of_career_paths
    (oracle cache : String → Option (String × String))
    (registry : List DraftRecord) (batches : List (List PlacementRow))
    (currentYear : Int) :
    (String → Option (String × String)) × Except String (List CareerPathRow) :=
  let rows := batches.flatten
  let prefixed := rows.map fun r => PrefixedRow.mk r (leaguePrefixOf r.league)
  let mc := map_countries_to_alpha3 oracle cache prefixed
  let merged := mergeWithDraftHistory registry mc.1
  match addYearsFromDraft currentYear merged with
  | .error e => (mc.2, .error e)
  | .ok rows2 => (mc.2, .ok (dedupFirst (filterOutliers rows2)))

instance {ε α : Type} [DecidableEq ε] [DecidableEq α] :
    DecidableEq (Except ε α) := fun a b => by
  cases a <;> cases b
  case error.error e f => exact decidable_of_iff (e = f) (by simp)
  case error.ok => exact isFalse (by simp)
  case ok.error => exact isFalse (by simp)
  case ok.ok x y => exact decidable_of_iff (x = y) (by simp)

/-- Claim C7 as stated: an input holding two bit-identical placement rows
contributes exactly one derived row to the aggregator's output. -/
def ClaimC7 : Prop :=
  ∀ (oracle cache : String → Option (String × String))
    (registry : List DraftRecord) (batches : List (List PlacementRow))
    (currentYear : Int) (r : PlacementRow) (out : List CareerPathRow),
    2 ≤ batches.flatten.count r →
    (create_dataframe_of_career_paths oracle cache registry batches
      currentYear).2 = .ok out →
    (out.filter fun o => decide (baseOf o = r)).length = 1

/-- C7 is false on the code: duplicate rows whose computed
`Years_From_Draft` lands outside `(-10, 30]` are removed entirely by the
outlier gate, so the output contains zero rows derived from them, not
one.  Season `"60-61"` for a 2020 draftee (current year 2026) computes
offset 40 via the no-candidate fallback, and both copies are dropped. -/
theorem claim_C7_counterexample : ¬ ClaimC7 := by
  intro h
  have h2 := h (fun _ => none)
    (fun p => if p = "ARG" then some ("ARG", "Argentina") else none)
    [⟨"X", some 1, 2020, 1⟩] [[⟨"X", 1, "60-61", "T", "ARG-1"⟩,
      ⟨"X", 1, "60-61", "T", "ARG-1"⟩]] 2026 ⟨"X", 1, "60-61", "T", "ARG-1"⟩
    [] (by decide) (by decide)
  exact absurd h2 (by decide)

/-- C7 amended: the aggregator's output never contains two equal rows —
`drop_duplicates` leaves at most one copy of any row, so two
bit-identical placement rows contribute at most one copy of each derived
row (exactly one only when the derived row survives the outlier gate). -/
theorem claim_C7_amended :
    ∀ (oracle cache : String → Option (String × String))
      (registry : List DraftRecord) (batches : List (List PlacementRow))
      (currentYear : Int) (out : List CareerPathRow),
    (create_dataframe_of_career_paths oracle cache registry batches
      currentYear).2 = .ok out →
    out.Nodup ∧ ∀ o : CareerPathRow, out.count o ≤ 1 := by
  intro oracle cache registry batches cy out hok
  simp only [create_dataframe_of_career_paths] at hok
  cases haddr : addYearsFromDraft cy (mergeWithDraftHistory registry
      (map_countries_to_alpha3 oracle cache
        (batches.flatten.map fun r =>
          PrefixedRow.mk r (leaguePrefixOf r.league))).1) with
  | error e =>
    rw [haddr] at hok
    exact absurd hok (by simp)
  | ok rows2 =>
    rw [haddr] at hok
    simp only [Except.ok.injEq] at hok
    subst hok
    have hnd := dedupFirst_nodup (filterOutliers rows2)
    exact ⟨hnd, List.nodup_iff_count_le_one.mp hnd⟩

/-- Witness for `claim_C7_amended` on the counterexample input (whose
output is the empty, trivially duplicate-free, table). -/
theorem claim_C7_amended_witness :
    ([] : List CareerPathRow).Nodup ∧
    ∀ o : CareerPathRow, ([] : List CareerPathRow).count o ≤ 1 :=
  claim_C7_amended (fun _ => none)
    (fun p => if p = "ARG" then some ("ARG", "Argentina") else none)
    [⟨"X", some 1, 2020, 1⟩] [[⟨"X", 1, "60-61", "T", "ARG-1"⟩,
      ⟨"X", 1, "60-61", "T", "ARG-1"⟩]] 2026 [] (by decide)

end NBADraft
